import Mathlib

/-!
Verification development for the "affection game" chat application
(single source file `app.py`).  The definitions below are a shallow
embedding of the Python request handlers and helper functions; the
theorems settle the specification claims about them.

Modelling conventions:
* Python `int` is `Int`; timestamps (`datetime.utcnow()`) are `Nat` instants.
* The Firestore room document is the structure `RoomData`; the `users`
  dict is an association list in insertion order, the `messages` array a
  `List Message`.
* Fallible external calls (the Gemini completion) are passed in as an
  explicit `String → Except String String` argument: `.ok text` is the
  returned raw text, `.error e` models an exception raised by the call.
* `random` draws are passed in as explicit streams of digit draws.
* `json.loads` is modelled by an executable recursive-descent parser
  (`jloads`) restricted to integer numeric literals (no float/exponent
  forms, no numeric-literal underscores); all inputs appearing in the
  claims fall inside this fragment.
-/

/-- JSON values as decoded by `json.loads`: objects keep their key/value
pairs in textual order (lookups take the last binding, as a Python dict
built by the decoder does). -/
inductive JValue where
  | jnull : JValue
  | jbool : Bool → JValue
  | jnum : Int → JValue
  | jstr : String → JValue
  | jarr : List JValue → JValue
  | jobj : List (String × JValue) → JValue
deriving Repr

/-- True exactly on JSON strings (models `isinstance(v, str)`). -/
def JValue.isStr : JValue → Bool
  | .jstr _ => true
  | _ => false

/-- JSON insignificant whitespace: space, tab, line feed, carriage return. -/
def jsonWs (c : Char) : Bool :=
  c == ' ' || c == Char.ofNat 9 || c == Char.ofNat 10 || c == Char.ofNat 13

/-- Drop leading JSON whitespace. -/
def skipWs (cs : List Char) : List Char := cs.dropWhile jsonWs

/-- Value of one hexadecimal digit, if any. -/
def hexVal (c : Char) : Option Nat :=
  if c.isDigit then some (c.toNat - 48)
  else if 97 ≤ c.toNat && c.toNat ≤ 102 then some (c.toNat - 87)
  else if 65 ≤ c.toNat && c.toNat ≤ 70 then some (c.toNat - 55)
  else none

/-- Single-character JSON string escapes. -/
def escMap (c : Char) : Option Char :=
  if c == Char.ofNat 34 then some (Char.ofNat 34)
  else if c == Char.ofNat 92 then some (Char.ofNat 92)
  else if c == '/' then some '/'
  else if c == 'b' then some (Char.ofNat 8)
  else if c == 'f' then some (Char.ofNat 12)
  else if c == 'n' then some (Char.ofNat 10)
  else if c == 'r' then some (Char.ofNat 13)
  else if c == 't' then some (Char.ofNat 9)
  else none

/-- Parse the body of a JSON string after the opening quote, returning the
decoded characters and the input remaining after the closing quote.
Unescaped control characters are rejected, as Python strict-mode decoding
does.  Fuel-driven; callers supply enough fuel for the input length. -/
def parseStringBody : Nat → List Char → Option (List Char × List Char)
  | 0, _ => none
  | _, [] => none
  | fuel+1, c :: rest =>
    if c == Char.ofNat 34 then some ([], rest)
    else if c == Char.ofNat 92 then
      match rest with
      | [] => none
      | e :: rest2 =>
        if e == 'u' then
          match rest2 with
          | h1 :: h2 :: h3 :: h4 :: rest6 =>
            match hexVal h1, hexVal h2, hexVal h3, hexVal h4 with
            | some a, some b, some c2, some d =>
              match parseStringBody fuel rest6 with
              | some (out, rem) => some (Char.ofNat (((a*16+b)*16+c2)*16+d) :: out, rem)
              | none => none
            | _, _, _, _ => none
          | _ => none
        else
          match escMap e with
          | some ec =>
            match parseStringBody fuel rest2 with
            | some (out, rem) => some (ec :: out, rem)
            | none => none
          | none => none
    else if c.toNat < 32 then none
    else
      match parseStringBody fuel rest with
      | some (out, rem) => some (c :: out, rem)
      | none => none

/-- Decimal value of a digit list. -/
def digitsToNat (ds : List Char) : Nat := ds.foldl (fun n c => n * 10 + (c.toNat - 48)) 0

/-- Parse a JSON number restricted to integer literals: optional minus,
digits, no leading zeros.  A following fraction or exponent marker makes
the parse fail (float literals are outside the modelled fragment). -/
def parseNumber (cs : List Char) : Option (JValue × List Char) :=
  let signed := match cs with
    | c :: rest => if c == '-' then (true, rest) else (false, cs)
    | [] => (false, cs)
  let ds := signed.2.takeWhile Char.isDigit
  let rest := signed.2.dropWhile Char.isDigit
  if ds.isEmpty then none
  else if ds.length > 1 && ds.headD '0' == '0' then none
  else
    let n : Int := if signed.1 then -(Int.ofNat (digitsToNat ds)) else Int.ofNat (digitsToNat ds)
    match rest with
    | c :: _ => if c == '.' || c == 'e' || c == 'E' then none else some (.jnum n, rest)
    | [] => some (.jnum n, rest)

mutual

/-- Parse one JSON value at the head of the input (no leading whitespace),
returning it with the remaining input. -/
def parseValue : Nat → List Char → Option (JValue × List Char)
  | 0, _ => none
  | fuel+1, cs =>
    match cs with
    | 't' :: 'r' :: 'u' :: 'e' :: rest => some (.jbool true, rest)
    | 'f' :: 'a' :: 'l' :: 's' :: 'e' :: rest => some (.jbool false, rest)
    | 'n' :: 'u' :: 'l' :: 'l' :: rest => some (.jnull, rest)
    | c :: rest =>
      if c == Char.ofNat 123 then parseObj fuel (skipWs rest)
      else if c == Char.ofNat 91 then parseArr fuel (skipWs rest)
      else if c == Char.ofNat 34 then
        match parseStringBody (rest.length + 1) rest with
        | some (out, rem) => some (.jstr (String.mk out), rem)
        | none => none
      else parseNumber cs
    | [] => none

/-- Parse an object after its opening brace (leading whitespace skipped). -/
def parseObj : Nat → List Char → Option (JValue × List Char)
  | 0, _ => none
  | fuel+1, cs =>
    match cs with
    | c :: rest =>
      if c == Char.ofNat 125 then some (.jobj [], rest)
      else if c == Char.ofNat 34 then
        match parseStringBody (rest.length + 1) rest with
        | some (key, afterKey) =>
          match skipWs afterKey with
          | ':' :: afterColon =>
            match parseValue fuel (skipWs afterColon) with
            | some (v, afterVal) => parseObjRest fuel (skipWs afterVal) [(String.mk key, v)]
            | none => none
          | _ => none
        | none => none
      else none
    | [] => none

/-- Parse the remaining members of an object after one key/value pair. -/
def parseObjRest : Nat → List Char → List (String × JValue) → Option (JValue × List Char)
  | 0, _, _ => none
  | fuel+1, cs, acc =>
    match cs with
    | c :: rest =>
      if c == Char.ofNat 125 then some (.jobj acc, rest)
      else if c == ',' then
        match skipWs rest with
        | q :: afterQ =>
          if q == Char.ofNat 34 then
            match parseStringBody (afterQ.length + 1) afterQ with
            | some (key, afterKey) =>
              match skipWs afterKey with
              | ':' :: afterColon =>
                match parseValue fuel (skipWs afterColon) with
                | some (v, afterVal) =>
                  parseObjRest fuel (skipWs afterVal) (acc ++ [(String.mk key, v)])
                | none => none
              | _ => none
            | none => none
          else none
        | [] => none
      else none
    | [] => none

/-- Parse an array after its opening bracket (leading whitespace skipped). -/
def parseArr : Nat → List Char → Option (JValue × List Char)
  | 0, _ => none
  | fuel+1, cs =>
    match cs with
    | c :: _ =>
      if c == Char.ofNat 93 then some (.jarr [], cs.tail)
      else
        match parseValue fuel cs with
        | some (v, afterVal) => parseArrRest fuel (skipWs afterVal) [v]
        | none => none
    | [] => none

/-- Parse the remaining elements of an array after one element. -/
def parseArrRest : Nat → List Char → List JValue → Option (JValue × List Char)
  | 0, _, _ => none
  | fuel+1, cs, acc =>
    match cs with
    | c :: rest =>
      if c == Char.ofNat 93 then some (.jarr acc, rest)
      else if c == ',' then
        match parseValue fuel (skipWs rest) with
        | some (v, afterVal) => parseArrRest fuel (skipWs afterVal) (acc ++ [v])
        | none => none
      else none
    | [] => none

end

/-- Models `json.loads`: parse one JSON document, allowing surrounding
whitespace, and fail on any trailing data (Python raises "Extra data"). -/
def jloads (s : String) : Option JValue :=
  let cs := skipWs s.toList
  match parseValue (cs.length + 1) cs with
  | some (v, rest) => if skipWs rest = [] then some v else none
  | none => none

/-- Models Python dict lookup `d.get(key, default)` for a dict built by the
JSON decoder: on duplicate keys the decoder keeps the last value. -/
def jdictGet (kvs : List (String × JValue)) (key : String) (dflt : JValue) : JValue :=
  match kvs.reverse.find? (fun p => p.1 == key) with
  | some p => p.2
  | none => dflt

/-- Models Python `int(s)` on a string: strip surrounding whitespace, allow
one optional sign, then require a nonempty run of decimal digits
(numeric-literal underscores accepted by Python are not modelled; no claim
exercises them). -/
def pyIntOfString (s : String) : Option Int :=
  let core := (s.toList.dropWhile Char.isWhitespace).reverse.dropWhile Char.isWhitespace
  let core := core.reverse
  let signed : Bool × List Char := match core with
    | c :: rest => if c == '-' then (true, rest) else if c == '+' then (false, rest) else (false, core)
    | [] => (false, core)
  if signed.2.isEmpty then none
  else if signed.2.all Char.isDigit then
    some (if signed.1 then -(Int.ofNat (digitsToNat signed.2)) else Int.ofNat (digitsToNat signed.2))
  else none

/-- Models Python `int(v)` applied to a JSON-decoded value: integers pass
through, booleans coerce to 0/1, digit strings are parsed; `None`, lists
and dicts raise `TypeError` (here `none`). -/
def pyInt : JValue → Option Int
  | .jnum n => some n
  | .jbool b => some (if b then 1 else 0)
  | .jstr s => pyIntOfString s
  | _ => none

/-- Models Python `str(v)` on a JSON-decoded value where it matters to the
handlers: strings pass through unchanged.  Container renderings are
abbreviated (no claim inspects them). -/
def pyStr : JValue → String
  | .jnull => "None"
  | .jbool true => "True"
  | .jbool false => "False"
  | .jnum n => toString n
  | .jstr s => s
  | .jarr _ => "[...]"
  | .jobj _ => "\x7b...\x7d"

/-- Index of the first occurrence of a character, if any. -/
def firstIdxOf (c : Char) (cs : List Char) : Option Nat := cs.findIdx? (fun x => x == c)

/-- Index of the last occurrence of a character, if any. -/
def lastIdxOf (c : Char) (cs : List Char) : Option Nat :=
  match cs.reverse.findIdx? (fun x => x == c) with
  | some k => some (cs.length - 1 - k)
  | none => none

/-- Models `re.search(r'\x7b.*\x7d', text, re.DOTALL).group(0)`: with the
greedy dot-matches-all pattern, a match exists exactly when some closing
brace follows the first opening brace, and the match then runs from the
first opening brace to the last closing brace of the whole text. -/
def braceBlock (text : String) : Option String :=
  let cs := text.toList
  match firstIdxOf (Char.ofNat 123) cs, lastIdxOf (Char.ofNat 125) cs with
  | some i, some j => if i < j then some (String.mk ((cs.drop i).take (j - i + 1))) else none
  | _, _ => none

/-- Result shape of `parse_gemini_response`: the Python function returns a
dict whose `affection_change` entry is always `int(...)`, while the
`response` entry is whatever value the decoded JSON supplied (not
necessarily a string). -/
structure GeminiParsed where
  response : JValue
  affection_change : Int
deriving Repr

/-- Embeds `parse_gemini_response` (app.py lines 156-170): find the greedy
brace-delimited block; if none, return the raw text with change 0; else
`json.loads` it and read the two fields, coercing the change to `int`;
any failure (no valid JSON, non-object JSON, uncoercible change) is caught
by the `except` clause and falls back to the raw text with change 0. -/
def parse_gemini_response (text : String) : GeminiParsed :=
  match braceBlock text with
  | none => { response := JValue.jstr text, affection_change := 0 }
  | some json_text =>
    match jloads json_text with
    | some (JValue.jobj data) =>
      match pyInt (jdictGet data "affection_change" (JValue.jnum 0)) with
      | some n =>
        { response := jdictGet data "response" (JValue.jstr "I\x27m not sure what to say."),
          affection_change := n }
      | none => { response := JValue.jstr text, affection_change := 0 }
    | _ => { response := JValue.jstr text, affection_change := 0 }

/-- One entry of a room's `messages` array: sender identifier (a user id,
the bot name, or the literal "System"), text, and timestamp instant. -/
structure Message where
  user : String
  text : String
  timestamp : Nat
deriving Repr, DecidableEq

/-- One entry of a room's `users` dict. -/
structure UserData where
  nickname : String
  score : Int
deriving Repr, DecidableEq

/-- The Firestore room document (app.py lines 286-309).  `users` is an
association list in dict insertion order; `messages` in array order. -/
structure RoomData where
  bot_name : String
  bot_personality : String
  start_scenario : String
  difficulty : Int
  game_over : Bool
  users : List (String × UserData)
  messages : List Message
  bot_image_url : String
  bot_appearance : String
deriving Repr, DecidableEq

/-- Comparison used to sort messages: Python
`sorted(messages, key=lambda m: m.get('timestamp'))`. -/
def msgLe (a b : Message) : Prop := a.timestamp ≤ b.timestamp

instance : DecidableRel msgLe := fun a b => Nat.decLe a.timestamp b.timestamp

instance : IsTotal Message msgLe := ⟨fun a b => Nat.le_total a.timestamp b.timestamp⟩

instance : IsTrans Message msgLe := ⟨fun _ _ _ h1 h2 => Nat.le_trans h1 h2⟩

/-- Models `sorted(room_data.get('messages', []), key=lambda m: m.get('timestamp'))`
(app.py line 126).  Python `sorted` is a stable sort by the key; insertion
sort with the reflexive key order is the same stable sort, so the two
agree on every input, including duplicate timestamps. -/
def sorted_messages (room : RoomData) : List Message :=
  List.insertionSort msgLe room.messages

/-- Models the slice `sorted_messages[-10:]` (app.py line 128): the last
ten elements of the sorted list, all of them when fewer exist. -/
def lastTenMessages (room : RoomData) : List Message :=
  (sorted_messages room).drop ((sorted_messages room).length - 10)

/-- Models the speaker resolution of app.py lines 129-135: the bot's own
name displays as "You", the literal "System" as itself, and any other
sender as the first matching user entry's nickname, falling back to the
raw identifier when no user entry matches. -/
def sender_display (room : RoomData) (sender : String) : String :=
  if sender = room.bot_name then "You"
  else if sender = "System" then "System"
  else
    match room.users.find? (fun p => p.1 == sender) with
    | some p => p.2.nickname
    | none => sender

/-- Rendered chat-history lines of the prompt (app.py lines 128-137). -/
def historyLines (room : RoomData) : List String :=
  (lastTenMessages room).map (fun m => sender_display room m.user ++ ": " ++ m.text)

/-- Rendered per-user affection table of the prompt (app.py lines 117-121). -/
def affectionLines (room : RoomData) : List String :=
  if room.users.isEmpty then ["No one is in the room yet."]
  else room.users.map (fun p => "- " ++ p.2.nickname ++ ": " ++ toString p.2.score ++ "%")

/-- The fixed instruction block of the prompt (app.py lines 142-152). -/
def taskBlock (room : RoomData) : String :=
  "Based on this new message, you must do two things:" ++
  "\n1.  **Respond** in character as " ++ room.bot_name ++ "." ++
  "\n2.  **Evaluate** the user\x27s message. How much did it change your affection for them?" ++
  " The difficulty is " ++ toString room.difficulty ++ "/10." ++
  "\nYou MUST reply in this exact JSON format (no markdown):" ++
  "\n\x7b" ++
  "\n  \"response\": \"Your in-character reply here.\"," ++
  "\n  \"affection_change\": <number from -20 to 20>" ++
  "\n\x7d"

/-- The prompt lines that precede the rendered chat history
(app.py lines 111-124). -/
def promptHeadLines (room : RoomData) : List String :=
  [ "You are " ++ room.bot_name ++ ". Your personality is: " ++ room.bot_personality ++ ".",
    "Your appearance is: " ++ room.bot_appearance,
    "You are in a role-playing game where multiple users are trying to win your affection.",
    "\nCurrent affection levels:" ] ++
  affectionLines room ++
  [ "\nThe current scenario: " ++ room.start_scenario,
    "\nHere is the recent chat history (max 10):" ]

/-- The prompt lines that follow the rendered chat history
(app.py lines 139-152). -/
def promptTailLines (room : RoomData) (user_nickname message_text : String) : List String :=
  [ "\n--- NEW MESSAGE ---",
    user_nickname ++ ": " ++ message_text,
    "\n--- YOUR TASK ---",
    taskBlock room ]

/-- The `prompt_lines` list built by `build_gemini_prompt`
(app.py lines 110-152), in source order. -/
def promptLines (room : RoomData) (user_nickname message_text : String) : List String :=
  promptHeadLines room ++ historyLines room ++ promptTailLines room user_nickname message_text

/-- Embeds `build_gemini_prompt` (app.py lines 110-153):
`"\n".join(prompt_lines)`. -/
def build_gemini_prompt (room : RoomData) (user_nickname message_text : String) : String :=
  String.intercalate "\n" (promptLines room user_nickname message_text)

/-- Models Firestore `ArrayUnion`: each listed element is appended to the
array only when not already present (element-wise set union, preserving
order of first appearance). -/
def arrayUnion (xs new_elems : List Message) : List Message :=
  new_elems.foldl (fun acc m => if m ∈ acc then acc else acc ++ [m]) xs

/-- Python dict membership `user_id in room_data['users']`. -/
def usersContains (users : List (String × UserData)) (user_id : String) : Bool :=
  users.any (fun p => p.1 == user_id)

/-- HTTP-level outcomes the handlers can produce. -/
inductive HttpResponse where
  | redirect_index (flash_msg : String)
  | redirect_room (room_code : String)
  | render_room
  | json_error (error : String) (status : Nat)
  | json_success
  | server_error
deriving Repr, DecidableEq

/-- Request method of the room view. -/
inductive Method where
  | get
  | post
deriving Repr, DecidableEq

/-- The new room document built by the create handler
(app.py lines 286-309), after the form defaults have been applied. -/
def new_room_data (user_id nickname bot_name bot_personality start_scenario : String)
    (difficulty : Int) (bot_image_url bot_appearance : String) (ts : Nat) : RoomData :=
  { bot_name := bot_name,
    bot_personality := bot_personality,
    start_scenario := start_scenario,
    difficulty := difficulty,
    game_over := false,
    users := [(user_id, { nickname := nickname, score := 0 })],
    messages :=
      [ { user := "System", text := "Game started! " ++ nickname ++ " created the room.",
          timestamp := ts },
        { user := bot_name, text := start_scenario, timestamp := ts } ],
    bot_image_url := bot_image_url,
    bot_appearance := bot_appearance }

/-- Embeds the POST branch of `create_room` (app.py lines 267-314): apply
the form defaults (empty nickname falls back to "Host", missing fields to
their literal defaults, falsy image URL to the placeholder), coerce the
difficulty with `int(...)` — an uncoercible value raises and no room is
written — then store the new document and redirect into the room. -/
def create_room (room_code user_id : String)
    (nickname_raw bot_name_raw bot_personality_raw start_scenario_raw
      difficulty_raw bot_image_url_raw appearance_raw : Option String)
    (ts : Nat) : HttpResponse × Option RoomData :=
  let nickname0 := nickname_raw.getD "Host"
  let nickname := if nickname0.trim = "" then "Host" else nickname0
  match (match difficulty_raw with | none => some (5 : Int) | some s => pyIntOfString s) with
  | none => (.server_error, none)
  | some difficulty =>
    let bot_name := bot_name_raw.getD "Bot"
    let start_scenario := start_scenario_raw.getD "You meet at a park."
    let bot_image_url :=
      match bot_image_url_raw with
      | none => "https://placehold.co/100x100/4a5568/FFFFFF?text=Bot"
      | some s => if s = "" then "https://placehold.co/100x100/4a5568/FFFFFF?text=Bot" else s
    let bot_personality := bot_personality_raw.getD "friendly"
    let bot_appearance := appearance_raw.getD "not specified"
    (.redirect_room room_code,
      some (new_room_data user_id nickname bot_name bot_personality start_scenario
        difficulty bot_image_url bot_appearance ts))

/-- Embeds `join_room` (app.py lines 319-357).  `room_doc` is the store's
document for the posted code (`none` when absent), `guest_num` the random
number used when the nickname is blank, `ts` the write timestamp.  The
second component is the document after the handler ran. -/
def join_room (room_code : String) (room_doc : Option RoomData)
    (nickname_raw : Option String) (guest_num : Nat) (user_id : String) (ts : Nat) :
    HttpResponse × Option RoomData :=
  let nickname0 := nickname_raw.getD "Guest"
  let nickname := if nickname0.trim = "" then "Guest_" ++ toString guest_num else nickname0
  match room_doc with
  | none => (.redirect_index "Error: Room code not found.", none)
  | some room =>
    if room.game_over then (.redirect_index "Error: This game has already ended.", some room)
    else if usersContains room.users user_id then (.redirect_room room_code, some room)
    else
      (.redirect_room room_code,
        some { room with
          users := room.users ++ [(user_id, { nickname := nickname, score := 0 })],
          messages := arrayUnion room.messages
            [{ user := "System", text := nickname ++ " has joined the game!", timestamp := ts }] })

/-- The clamped score written by the message-posting handler
(app.py lines 399-400): `max(0, min(100, current + change))`. -/
def new_score_calc (current_score affection_change : Int) : Int :=
  max 0 (min 100 (current_score + affection_change))

/-- The system summary sentence of app.py lines 402-406, chosen by the
sign of the affection change. -/
def score_msg_text (nickname : String) (affection_change new_score : Int) : String :=
  if affection_change > 0 then
    nickname ++ "\x27s affection went up by " ++ toString affection_change ++
      "%! (Now " ++ toString new_score ++ "%)"
  else if affection_change < 0 then
    nickname ++ "\x27s affection went down by " ++ toString affection_change.natAbs ++
      "%! (Now " ++ toString new_score ++ "%)"
  else
    nickname ++ "\x27s affection didn\x27t change. (Still " ++ toString new_score ++ "%)"

/-- Embeds `chat_room` (app.py lines 361-442).  `room_doc` is the store's
document for the requested code; `gemini` is the generative-text call,
applied to the built prompt (`.error e` models an exception anywhere
between the call and the store write); `ts_start`, `ts_end`, `ts_error`
are the timestamps drawn at lines 387, 396 and 433.  The second component
is the document after the handler ran. -/
def chat_room (room_code : String) (room_doc : Option RoomData)
    (user_id nickname : String) (method : Method) (message_form : Option String)
    (gemini : String → Except String String) (ts_start ts_end ts_error : Nat) :
    HttpResponse × Option RoomData :=
  match room_doc with
  | none => (.redirect_index "Error: Room not found.", none)
  | some room =>
    match room.users.find? (fun p => p.1 == user_id) with
    | none => (.redirect_index "Error: You are not part of this room. Please join first.", some room)
    | some user_entry =>
      match method with
      | .get => (.render_room, some room)
      | .post =>
        if room.game_over then (.json_error "Game is over" 400, some room)
        else
          match message_form with
          | none => (.json_error "Empty message" 400, some room)
          | some message_text =>
            if message_text = "" then (.json_error "Empty message" 400, some room)
            else
              match gemini (build_gemini_prompt room nickname message_text) with
              | .error e =>
                let error_msgs : List Message :=
                  [ { user := user_id, text := message_text, timestamp := ts_error },
                    { user := "System",
                      text := "Sorry, " ++ nickname ++
                        ", I\x27m having trouble thinking. (Error: " ++ e ++ ")",
                      timestamp := ts_error } ]
                (.json_error e 500,
                  some { room with messages := arrayUnion room.messages error_msgs })
              | .ok response_text =>
                let parsed := parse_gemini_response response_text
                let bot_response := pyStr parsed.response
                let affection_change := parsed.affection_change
                let new_score := new_score_calc user_entry.2.score affection_change
                let score_msg := score_msg_text nickname affection_change new_score
                let base_msgs : List Message :=
                  [ { user := user_id, text := message_text, timestamp := ts_start },
                    { user := room.bot_name, text := bot_response, timestamp := ts_end },
                    { user := "System", text := score_msg, timestamp := ts_end } ]
                let messages_to_add :=
                  if new_score ≥ 100 then
                    base_msgs ++
                      [ { user := "System",
                          text := "GAME OVER! " ++ nickname ++ " has won " ++
                            room.bot_name ++ "\x27s affection!",
                          timestamp := ts_end } ]
                  else base_msgs
                (.json_success,
                  some { room with
                    users := room.users.map
                      (fun p => if p.1 == user_id then (p.1, { p.2 with score := new_score }) else p),
                    game_over := if new_score ≥ 100 then true else room.game_over,
                    messages := arrayUnion room.messages messages_to_add })

/-- A digit drawn by `random.choices(string.digits, k=length)`. -/
def digitChar (d : Fin 10) : Char := Char.ofNat (48 + d.val)

/-- The candidate code built from one draw of the stream:
`''.join(random.choices(string.digits, k=length))`. -/
def codeOfDraw (draw : List (Fin 10)) : String := String.mk (draw.map digitChar)

/-- Embeds `generate_room_code` (app.py lines 94-99).  `existing` is the
set of room document ids, `draws` the stream of random digit draws; the
`while True` loop is modelled with explicit fuel: attempt `n` draws
`draws n` and returns it when no room document uses it, else retries. -/
def generate_room_code (existing : List String) (draws : Nat → List (Fin 10)) :
    Nat → Nat → Option String
  | 0, _ => none
  | fuel+1, n =>
    let code := codeOfDraw (draws n)
    if code ∈ existing then generate_room_code existing draws fuel (n+1) else some code

/-- Room documents reachable through the handlers: a room written by the
create handler, or the update of a reachable room by the join or the
message-post handler. -/
inductive Reachable : RoomData → Prop
  | created (room_code user_id : String)
      (nickname_raw bot_name_raw bot_personality_raw start_scenario_raw
        difficulty_raw bot_image_url_raw appearance_raw : Option String)
      (ts : Nat) (room : RoomData) :
      (create_room room_code user_id nickname_raw bot_name_raw bot_personality_raw
          start_scenario_raw difficulty_raw bot_image_url_raw appearance_raw ts).2 = some room →
      Reachable room
  | joined (room : RoomData) (room_code : String) (nickname_raw : Option String)
      (guest_num : Nat) (user_id : String) (ts : Nat) (room2 : RoomData) :
      Reachable room →
      (join_room room_code (some room) nickname_raw guest_num user_id ts).2 = some room2 →
      Reachable room2
  | posted (room : RoomData) (room_code user_id nickname : String) (method : Method)
      (message_form : Option String) (gemini : String → Except String String)
      (ts_start ts_end ts_error : Nat) (room2 : RoomData) :
      Reachable room →
      (chat_room room_code (some room) user_id nickname method message_form gemini
          ts_start ts_end ts_error).2 = some room2 →
      Reachable room2

/-- Modelled from the spec: `clamp(x, lo, hi)`. -/
def clamp (x lo hi : Int) : Int := max lo (min hi x)

/-- C1: for every current score `s` in `[0,100]` and every integer
affection change `d`, the score computed by the message-posting handler
equals `clamp(s+d, 0, 100)` and lies in `[0,100]`; in particular
`s=95, d=20` yields 100 and `s=5, d=-20` yields 0. -/
theorem score_clamp_correct (s d : Int) (h0 : 0 ≤ s) (h1 : s ≤ 100) :
    new_score_calc s d = clamp (s + d) 0 100 ∧
    0 ≤ new_score_calc s d ∧ new_score_calc s d ≤ 100 ∧
    new_score_calc 95 20 = 100 ∧ new_score_calc 5 (-20) = 0 := by
  refine ⟨rfl, ?_, ?_, by decide, by decide⟩ <;> unfold new_score_calc <;> omega

/-- Witness for `score_clamp_correct` at the boundary input `s=95, d=20`. -/
theorem score_clamp_correct_witness :
    new_score_calc 95 20 = clamp (95 + 20) 0 100 ∧
    0 ≤ new_score_calc 95 20 ∧ new_score_calc 95 20 ≤ 100 ∧
    new_score_calc 95 20 = 100 ∧ new_score_calc 5 (-20) = 0 :=
  score_clamp_correct 95 20 (by decide) (by decide)

/-- C2 counterexample: the claim says the `response` field of the returned
pair is always a string, but on input `'\x7b"response": 42, "affection_change": 5\x7d'`
the parse succeeds and `data.get("response", ...)` hands the JSON number
42 through unchanged, so the `response` field is an integer, not a
string. -/
theorem parse_response_nonstring_counterexample :
    (parse_gemini_response "\x7b\"response\": 42, \"affection_change\": 5\x7d").response =
      JValue.jnum 42 ∧
    (parse_gemini_response "\x7b\"response\": 42, \"affection_change\": 5\x7d").response.isStr
      = false ∧
    (parse_gemini_response "\x7b\"response\": 42, \"affection_change\": 5\x7d").affection_change
      = 5 :=
  ⟨rfl, rfl, rfl⟩

/-- C2 amended: `parse_gemini_response` is total — it always returns a
pair whose `affection_change` is an integer — and its `response` field is
a string in every case except when the extracted brace block parses as a
JSON object whose `response` entry is itself a non-string JSON value,
which is then returned unchanged. -/
theorem parse_gemini_response_total (text : String) :
    (parse_gemini_response text).response.isStr = true ∨
    (∃ block data, braceBlock text = some block ∧ jloads block = some (JValue.jobj data) ∧
      (parse_gemini_response text).response =
        jdictGet data "response" (JValue.jstr "I\x27m not sure what to say.") ∧
      pyInt (jdictGet data "affection_change" (JValue.jnum 0)) =
        some (parse_gemini_response text).affection_change) := by
  cases hb : braceBlock text with
  | none => left; simp [parse_gemini_response, hb, JValue.isStr]
  | some block =>
    cases hj : jloads block with
    | none => left; simp [parse_gemini_response, hb, hj, JValue.isStr]
    | some v =>
      cases v with
      | jobj data =>
        cases hp : pyInt (jdictGet data "affection_change" (JValue.jnum 0)) with
        | none => left; simp [parse_gemini_response, hb, hj, hp, JValue.isStr]
        | some n =>
          right
          exact ⟨block, data, rfl, hj, by simp [parse_gemini_response, hb, hj, hp],
            by simp [parse_gemini_response, hb, hj, hp]⟩
      | jnull => left; simp [parse_gemini_response, hb, hj, JValue.isStr]
      | jbool b => left; simp [parse_gemini_response, hb, hj, JValue.isStr]
      | jnum n => left; simp [parse_gemini_response, hb, hj, JValue.isStr]
      | jstr s => left; simp [parse_gemini_response, hb, hj, JValue.isStr]
      | jarr xs => left; simp [parse_gemini_response, hb, hj, JValue.isStr]

/-- C4: the parser extracts the block from the first opening brace to the
last closing brace of the whole text and parses it as JSON: the three
behaviours of the claim at their stated inputs, plus a fourth input with
two brace groups showing that the extraction is greedy (first opening
brace to last closing brace, hence not valid JSON there, hence the
fallback). -/
theorem parse_gemini_response_examples :
    parse_gemini_response "blah \x7b\"response\":\"hi\",\"affection_change\":5\x7d trailing" =
      { response := JValue.jstr "hi", affection_change := 5 } ∧
    braceBlock "blah \x7b\"response\":\"hi\",\"affection_change\":5\x7d trailing" =
      some "\x7b\"response\":\"hi\",\"affection_change\":5\x7d" ∧
    parse_gemini_response "no json here" =
      { response := JValue.jstr "no json here", affection_change := 0 } ∧
    braceBlock "no json here" = none ∧
    parse_gemini_response "\x7b\"response\":\"x\",\"affection_change\":\"notanumber\"\x7d" =
      { response := JValue.jstr "\x7b\"response\":\"x\",\"affection_change\":\"notanumber\"\x7d",
        affection_change := 0 } ∧
    braceBlock "x\x7b\"a\":1\x7d \x7b\"response\":\"z\",\"affection_change\":3\x7d y" =
      some "\x7b\"a\":1\x7d \x7b\"response\":\"z\",\"affection_change\":3\x7d" ∧
    parse_gemini_response "x\x7b\"a\":1\x7d \x7b\"response\":\"z\",\"affection_change\":3\x7d y" =
      { response :=
          JValue.jstr "x\x7b\"a\":1\x7d \x7b\"response\":\"z\",\"affection_change\":3\x7d y",
        affection_change := 0 } :=
  ⟨rfl, rfl, rfl, rfl, rfl, rfl, rfl⟩

/-- A sample live room used by witnesses: one member "u1", game not over,
one stored message with timestamp 7. -/
def roomLive : RoomData :=
  { bot_name := "Luna", bot_personality := "friendly", start_scenario := "You meet at a park.",
    difficulty := 5, game_over := false,
    users := [("u1", { nickname := "Nick", score := 50 })],
    messages := [{ user := "u1", text := "hi", timestamp := 7 }],
    bot_image_url := "url", bot_appearance := "cute" }

/-- The same sample room with the game already over. -/
def roomOver : RoomData := { roomLive with game_over := true }

/-- C3: once a room's `game_over` field is true, a POST of a message to
that room is rejected with an error response (the 400 game-over error for
a member, the not-a-member redirect otherwise), the stored document is
unchanged, and the outcome does not depend on the generative-text call or
on the drawn timestamps — the rejection happens before the service is
invoked and before any write. -/
theorem game_over_post_rejected (room_code : String) (room : RoomData)
    (user_id nickname : String) (message_form : Option String)
    (gemini gemini2 : String → Except String String) (t1 t2 t3 s1 s2 s3 : Nat)
    (hgo : room.game_over = true) :
    (chat_room room_code (some room) user_id nickname .post message_form gemini t1 t2 t3).2 =
      some room ∧
    ((chat_room room_code (some room) user_id nickname .post message_form gemini t1 t2 t3).1 =
        .json_error "Game is over" 400 ∨
      (chat_room room_code (some room) user_id nickname .post message_form gemini t1 t2 t3).1 =
        .redirect_index "Error: You are not part of this room. Please join first.") ∧
    chat_room room_code (some room) user_id nickname .post message_form gemini t1 t2 t3 =
      chat_room room_code (some room) user_id nickname .post message_form gemini2 s1 s2 s3 := by
  cases hf : room.users.find? (fun p => p.1 == user_id) with
  | none => refine ⟨?_, Or.inr ?_, ?_⟩ <;> simp [chat_room, hf]
  | some entry => refine ⟨?_, Or.inl ?_, ?_⟩ <;> simp [chat_room, hf, hgo]

/-- Witness for `game_over_post_rejected` on the sample finished room. -/
theorem game_over_post_rejected_witness :
    (chat_room "42" (some roomOver) "u1" "Nick" .post (some "hi")
        (fun _ => .ok "x") 1 2 3).2 = some roomOver ∧
    ((chat_room "42" (some roomOver) "u1" "Nick" .post (some "hi")
        (fun _ => .ok "x") 1 2 3).1 = .json_error "Game is over" 400 ∨
      (chat_room "42" (some roomOver) "u1" "Nick" .post (some "hi")
        (fun _ => .ok "x") 1 2 3).1 =
        .redirect_index "Error: You are not part of this room. Please join first.") ∧
    chat_room "42" (some roomOver) "u1" "Nick" .post (some "hi") (fun _ => .ok "x") 1 2 3 =
      chat_room "42" (some roomOver) "u1" "Nick" .post (some "hi") (fun _ => .error "e") 4 5 6 :=
  game_over_post_rejected "42" roomOver "u1" "Nick" (some "hi")
    (fun _ => .ok "x") (fun _ => .error "e") 1 2 3 4 5 6 rfl

/-- A user identifier absent from the users dict is found by neither the
membership test nor the lookup. -/
theorem find?_eq_none_of_not_usersContains {users : List (String × UserData)} {user_id : String}
    (h : usersContains users user_id = false) :
    users.find? (fun p => p.1 == user_id) = none := by
  rw [List.find?_eq_none]
  intro p hp hbeq
  have hany : users.any (fun q => q.1 == user_id) = true := List.any_eq_true.mpr ⟨p, hp, hbeq⟩
  rw [usersContains] at h
  rw [h] at hany
  exact Bool.noConfusion hany

/-- C10: a request (GET or POST alike) to the room view by a session user
who is not a key of the room's users dict is answered with the flash
redirect to the landing page; the stored document is unchanged and the
generative-text call is never consulted (the result is the same for every
`gemini` argument since the handler returns before reaching it). -/
theorem nonmember_redirected (room_code : String) (room : RoomData)
    (user_id nickname : String) (method : Method) (message_form : Option String)
    (gemini : String → Except String String) (t1 t2 t3 : Nat)
    (h : usersContains room.users user_id = false) :
    chat_room room_code (some room) user_id nickname method message_form gemini t1 t2 t3 =
      (.redirect_index "Error: You are not part of this room. Please join first.", some room) := by
  simp [chat_room, find?_eq_none_of_not_usersContains h]

/-- Witness for `nonmember_redirected`: an outsider "ghost" GETs the
sample room. -/
theorem nonmember_redirected_witness :
    chat_room "42" (some roomLive) "ghost" "G" .get none (fun _ => .ok "x") 1 2 3 =
      (.redirect_index "Error: You are not part of this room. Please join first.", some roomLive) :=
  nonmember_redirected "42" roomLive "ghost" "G" .get none (fun _ => .ok "x") 1 2 3 rfl

/-- C7 counterexample: the claim promises that a second join with an
identifier already in the room's users dict always redirects back into the
room view, but when the room's game has meanwhile ended the handler's
game-over check fires first and redirects home with a flash message
instead (no store write happens in either case). -/
theorem join_after_game_over_counterexample :
    usersContains roomOver.users "u1" = true ∧
    join_room "42" (some roomOver) (some "Nick") 555 "u1" 3 =
      (.redirect_index "Error: This game has already ended.", some roomOver) ∧
    (HttpResponse.redirect_index "Error: This game has already ended." ≠
      HttpResponse.redirect_room "42") :=
  ⟨rfl, rfl, by decide⟩

/-- C7 amended: joining a room a second time with the same user identifier
changes nothing when the room's game is not over: the join handler
performs no store write (the document is returned unchanged, so no
duplicate user entry and no second joined message) and redirects the user
into the room view.  (When the game has meanwhile ended, the handler still
writes nothing but redirects home instead.) -/
theorem join_rejoin_noop (room_code : String) (room : RoomData) (nickname_raw : Option String)
    (guest_num : Nat) (user_id : String) (ts : Nat)
    (hmem : usersContains room.users user_id = true) (hgo : room.game_over = false) :
    join_room room_code (some room) nickname_raw guest_num user_id ts =
      (.redirect_room room_code, some room) := by
  simp [join_room, hgo, hmem]

/-- Witness for `join_rejoin_noop`: "u1" rejoins the live sample room. -/
theorem join_rejoin_noop_witness :
    join_room "42" (some roomLive) (some "Nick") 9 "u1" 8 =
      (.redirect_room "42", some roomLive) :=
  join_rejoin_noop "42" roomLive (some "Nick") 9 "u1" 8 rfl rfl

/-- C6 counterexample: the claim promises that a failed generative-text
call appends exactly two messages, but the store's `ArrayUnion` skips
elements already present in the array: when the user's raw message element
(same sender, text and timestamp) already occurs in the log, only the
apology is appended — the log grows from 1 to 2 entries, not to 3. -/
theorem chat_error_dedup_counterexample :
    ((chat_room "42" (some roomLive) "u1" "Nick" .post (some "hi")
        (fun _ => .error "boom") 1 2 7).2.map (fun r => r.messages.length)) = some 2 ∧
    roomLive.messages.length = 1 :=
  ⟨rfl, rfl⟩

/-- Firestore array union of two fresh, distinct elements is a plain
two-element append. -/
theorem arrayUnion_two_fresh (xs : List Message) (a b : Message)
    (ha : a ∉ xs) (hb : b ∉ xs) (hba : b ≠ a) :
    arrayUnion xs [a, b] = xs ++ [a, b] := by
  have hb2 : b ∉ xs ++ [a] := by
    intro hmm
    rcases List.mem_append.mp hmm with hcase | hcase
    · exact hb hcase
    · exact hba (List.mem_singleton.mp hcase)
  simp only [arrayUnion, List.foldl_cons, List.foldl_nil]
  rw [if_neg ha, if_neg hb2, List.append_assoc]
  rfl

/-- C6 amended: when the generative-text call (or any step before the
store write) fails on a message POST by a member of a live room, the
handler appends exactly two messages — the user's raw message text and
the system apology embedding the error detail — provided neither element
coincides with an entry already in the log (the store's array union skips
duplicates); every user's score and the `game_over` flag are unchanged. -/
theorem chat_error_appends_two (room_code : String) (room : RoomData)
    (user_id nickname message_text e : String) (t1 t2 t3 : Nat)
    (entry : String × UserData)
    (hmem : room.users.find? (fun p => p.1 == user_id) = some entry)
    (hgo : room.game_over = false) (hne : message_text ≠ "")
    (hid : user_id ≠ "System")
    (hu : ({ user := user_id, text := message_text, timestamp := t3 } : Message) ∉ room.messages)
    (hs : ({ user := "System",
             text := "Sorry, " ++ nickname ++
               ", I\x27m having trouble thinking. (Error: " ++ e ++ ")",
             timestamp := t3 } : Message) ∉ room.messages) :
    chat_room room_code (some room) user_id nickname .post (some message_text)
        (fun _ => .error e) t1 t2 t3 =
      (.json_error e 500,
        some { room with messages := room.messages ++
          [ { user := user_id, text := message_text, timestamp := t3 },
            { user := "System",
              text := "Sorry, " ++ nickname ++
                ", I\x27m having trouble thinking. (Error: " ++ e ++ ")",
              timestamp := t3 } ] }) ∧
    ({ room with messages := room.messages ++
        [ { user := user_id, text := message_text, timestamp := t3 },
          { user := "System",
            text := "Sorry, " ++ nickname ++
              ", I\x27m having trouble thinking. (Error: " ++ e ++ ")",
            timestamp := t3 } ] } : RoomData).users = room.users ∧
    ({ room with messages := room.messages ++
        [ { user := user_id, text := message_text, timestamp := t3 },
          { user := "System",
            text := "Sorry, " ++ nickname ++
              ", I\x27m having trouble thinking. (Error: " ++ e ++ ")",
            timestamp := t3 } ] } : RoomData).game_over = room.game_over := by
  refine ⟨?_, rfl, rfl⟩
  have hunion := arrayUnion_two_fresh room.messages
    { user := user_id, text := message_text, timestamp := t3 }
    { user := "System",
      text := "Sorry, " ++ nickname ++
        ", I\x27m having trouble thinking. (Error: " ++ e ++ ")",
      timestamp := t3 }
    hu hs (fun heq => hid (congrArg Message.user heq).symm)
  simp [chat_room, hmem, hgo, hne, hunion]

/-- Witness for `chat_error_appends_two`: a failing call on the live
sample room with a fresh timestamp appends the two messages. -/
theorem chat_error_appends_two_witness :
    chat_room "42" (some roomLive) "u1" "Nick" .post (some "hi")
        (fun _ => .error "boom") 1 2 9 =
      (.json_error "boom" 500,
        some { roomLive with messages := roomLive.messages ++
          [ { user := "u1", text := "hi", timestamp := 9 },
            { user := "System",
              text := "Sorry, Nick, I\x27m having trouble thinking. (Error: boom)",
              timestamp := 9 } ] }) ∧
    ({ roomLive with messages := roomLive.messages ++
        [ { user := "u1", text := "hi", timestamp := 9 },
          { user := "System",
            text := "Sorry, Nick, I\x27m having trouble thinking. (Error: boom)",
            timestamp := 9 } ] } : RoomData).users = roomLive.users ∧
    ({ roomLive with messages := roomLive.messages ++
        [ { user := "u1", text := "hi", timestamp := 9 },
          { user := "System",
            text := "Sorry, Nick, I\x27m having trouble thinking. (Error: boom)",
            timestamp := 9 } ] } : RoomData).game_over = roomLive.game_over :=
  chat_error_appends_two "42" roomLive "u1" "Nick" "hi" "boom" 1 2 9
    ("u1", { nickname := "Nick", score := 50 })
    rfl rfl (by decide) (by decide) (by decide) (by decide)

/-- C5: the prompt builder selects exactly the ten chronologically-latest
messages of the room (all of them when fewer than ten exist), renders them
oldest-first, and displays each speaker as "You" for the bot's own name,
"System" for the literal "System", and otherwise as the matching user
entry's current nickname, falling back to the raw identifier when no user
entry exists; the rendered history appears as a contiguous block of the
built prompt's lines. -/
theorem prompt_last_ten (room : RoomData) (user_nickname message_text : String) :
    ∃ dropped : List Message,
      List.Perm (dropped ++ lastTenMessages room) room.messages ∧
      (lastTenMessages room).length = min room.messages.length 10 ∧
      List.Sorted msgLe (lastTenMessages room) ∧
      (∀ a ∈ dropped, ∀ b ∈ lastTenMessages room, a.timestamp ≤ b.timestamp) ∧
      historyLines room = (lastTenMessages room).map
        (fun m => sender_display room m.user ++ ": " ++ m.text) ∧
      (∀ m ∈ lastTenMessages room,
        (m.user = room.bot_name → sender_display room m.user = "You") ∧
        (m.user ≠ room.bot_name → m.user = "System" → sender_display room m.user = "System") ∧
        (∀ u, m.user ≠ room.bot_name → m.user ≠ "System" →
          room.users.find? (fun p => p.1 == m.user) = some u →
          sender_display room m.user = u.2.nickname) ∧
        (m.user ≠ room.bot_name → m.user ≠ "System" →
          room.users.find? (fun p => p.1 == m.user) = none →
          sender_display room m.user = m.user)) ∧
      (∃ pre post, promptLines room user_nickname message_text =
        pre ++ historyLines room ++ post) := by
  refine ⟨(sorted_messages room).take ((sorted_messages room).length - 10),
    ?_, ?_, ?_, ?_, rfl, ?_, promptHeadLines room,
    promptTailLines room user_nickname message_text, rfl⟩
  · show List.Perm ((sorted_messages room).take ((sorted_messages room).length - 10) ++
      (sorted_messages room).drop ((sorted_messages room).length - 10)) room.messages
    rw [List.take_append_drop]
    exact List.perm_insertionSort msgLe room.messages
  · have hlen : (sorted_messages room).length = room.messages.length := by
      simp [sorted_messages]
    show ((sorted_messages room).drop ((sorted_messages room).length - 10)).length =
      min room.messages.length 10
    rw [List.length_drop, hlen]
    omega
  · exact List.Pairwise.sublist (List.drop_sublist _ _)
      (List.sorted_insertionSort msgLe room.messages)
  · have hp : List.Pairwise msgLe
        ((sorted_messages room).take ((sorted_messages room).length - 10) ++
          (sorted_messages room).drop ((sorted_messages room).length - 10)) := by
      rw [List.take_append_drop]
      exact List.sorted_insertionSort msgLe room.messages
    exact fun a ha b hb => (List.pairwise_append.mp hp).2.2 a ha b hb
  · intro m _
    refine ⟨fun h => by simp [sender_display, h],
      fun h1 h2 => by rw [h2] at h1 ⊢; simp [sender_display, h1],
      fun u h1 h2 hf => by simp [sender_display, h1, h2, hf],
      fun h1 h2 hf => by simp [sender_display, h1, h2, hf]⟩

/-- Every user entry's score lies in the inclusive range 0..100. -/
def scoresInRange (room : RoomData) : Prop :=
  ∀ p ∈ room.users, 0 ≤ p.2.score ∧ p.2.score ≤ 100

/-- The create handler only writes rooms whose sole user entry has
score 0. -/
theorem create_room_scores (room_code user_id : String)
    (n b bp sc d img app : Option String) (ts : Nat) (room : RoomData)
    (h : (create_room room_code user_id n b bp sc d img app ts).2 = some room) :
    scoresInRange room := by
  cases d with
  | none =>
    simp [create_room] at h
    intro p hp
    rw [← h] at hp
    simp [new_room_data] at hp
    simp [hp]
  | some s =>
    cases hps : pyIntOfString s with
    | none => simp [create_room, hps] at h
    | some diff =>
      simp [create_room, hps] at h
      intro p hp
      rw [← h] at hp
      simp [new_room_data] at hp
      simp [hp]

/-- The join handler preserves the score range: it adds at most one entry,
with score 0. -/
theorem join_room_scores (room_code : String) (room : RoomData) (n : Option String)
    (g : Nat) (user_id : String) (ts : Nat) (room2 : RoomData)
    (hinv : scoresInRange room)
    (h : (join_room room_code (some room) n g user_id ts).2 = some room2) :
    scoresInRange room2 := by
  by_cases hgo : room.game_over
  · simp [join_room, hgo] at h
    rw [← h]; exact hinv
  · by_cases hmem : usersContains room.users user_id
    · simp [join_room, hgo, hmem] at h
      rw [← h]; exact hinv
    · simp [join_room, hgo, hmem] at h
      intro p hp
      rw [← h] at hp
      simp only [List.mem_append] at hp
      rcases hp with hp | hp
      · exact hinv p hp
      · simp at hp
        simp [hp]

/-- The message-post handler preserves the score range: the only score it
ever writes is the clamped `new_score_calc` value. -/
theorem chat_room_scores (room_code : String) (room : RoomData) (user_id nickname : String)
    (method : Method) (msg : Option String) (gemini : String → Except String String)
    (t1 t2 t3 : Nat) (room2 : RoomData) (hinv : scoresInRange room)
    (h : (chat_room room_code (some room) user_id nickname method msg gemini t1 t2 t3).2 =
      some room2) :
    scoresInRange room2 := by
  cases hf : room.users.find? (fun p => p.1 == user_id) with
  | none =>
    simp [chat_room, hf] at h
    rw [← h]; exact hinv
  | some entry =>
    cases method with
    | get =>
      simp [chat_room, hf] at h
      rw [← h]; exact hinv
    | post =>
      by_cases hgo : room.game_over
      · simp [chat_room, hf, hgo] at h
        rw [← h]; exact hinv
      · cases msg with
        | none =>
          simp [chat_room, hf, hgo] at h
          rw [← h]; exact hinv
        | some mtext =>
          by_cases hmt : mtext = ""
          · simp [chat_room, hf, hgo, hmt] at h
            rw [← h]; exact hinv
          · cases hg : gemini (build_gemini_prompt room nickname mtext) with
            | error e =>
              simp [chat_room, hf, hgo, hmt, hg] at h
              intro p hp
              rw [← h] at hp
              exact hinv p hp
            | ok txt =>
              simp [chat_room, hf, hgo, hmt, hg] at h
              intro p hp
              rw [← h] at hp
              simp only [List.mem_map] at hp
              obtain ⟨q, hq, hpq⟩ := hp
              by_cases hqid : q.1 = user_id
              · rw [if_pos hqid] at hpq
                rw [← hpq]
                constructor <;> simp [new_score_calc]
              · rw [if_neg hqid] at hpq
                rw [← hpq]
                exact hinv q hq

/-- C8: every room state reachable through the handlers keeps all user
scores in [0,100]: the create handler initializes the creator's score to
0, the join handler initializes a new member's score to 0, and the
message-post handler only writes the clamped `new_score_calc` value. -/
theorem reachable_scores_bounded (room : RoomData) (h : Reachable room) :
    ∀ p ∈ room.users, 0 ≤ p.2.score ∧ p.2.score ≤ 100 := by
  induction h with
  | created code uid n b bp sc d img app ts rm hcr =>
    exact create_room_scores code uid n b bp sc d img app ts rm hcr
  | joined rm code n g uid ts rm2 _ hj ih =>
    exact join_room_scores code rm n g uid ts rm2 ih hj
  | posted rm code uid nick method msg gemini t1 t2 t3 rm2 _ hp ih =>
    exact chat_room_scores code rm uid nick method msg gemini t1 t2 t3 rm2 ih hp

/-- Witness for `reachable_scores_bounded`: the creator's entry of a
freshly created room. -/
theorem reachable_scores_bounded_witness :
    0 ≤ (("u1", ({ nickname := "Host", score := 0 } : UserData)) : String × UserData).2.score ∧
    (("u1", ({ nickname := "Host", score := 0 } : UserData)) : String × UserData).2.score ≤ 100 :=
  reachable_scores_bounded
    (new_room_data "u1" "Host" "Bot" "friendly" "You meet at a park." 5
      "https://placehold.co/100x100/4a5568/FFFFFF?text=Bot" "not specified" 0)
    (Reachable.created "42" "u1" none none none none none none none 0 _ (by simp [create_room]))
    ("u1", { nickname := "Host", score := 0 })
    (by simp [new_room_data])

/-- The retry loop of `generate_room_code` never returns when every draw
of the stream collides with an existing code: with the store containing
"0000" and a stream that always draws 0-0-0-0, every amount of fuel is
exhausted. -/
theorem gen_const_zero_none :
    ∀ fuel n, generate_room_code ["0000"] (fun _ => [0, 0, 0, 0]) fuel n = none := by
  intro fuel
  induction fuel with
  | zero => intro n; rfl
  | succ k ih =>
    intro n
    simp only [generate_room_code]
    rw [if_pos (by decide)]
    exact ih (n + 1)

/-- C9 counterexample: the claim asserts termination whenever some code of
the requested length is free, but the loop retries blindly on the random
stream: with "0000" stored and a draw stream that always produces 0-0-0-0,
free codes exist (e.g. "1111") yet no amount of fuel makes
`generate_room_code` return. -/
theorem generate_room_code_nontermination_counterexample :
    (∃ draw : List (Fin 10), draw.length = 4 ∧ codeOfDraw draw ∉ (["0000"] : List String)) ∧
    ¬ ∃ fuel code, generate_room_code ["0000"] (fun _ => [0, 0, 0, 0]) fuel 0 = some code := by
  constructor
  · exact ⟨[1, 1, 1, 1], by decide, by decide⟩
  · rintro ⟨fuel, code, h⟩
    rw [gen_const_zero_none fuel 0] at h
    exact Option.noConfusion h

/-- When some later draw of the stream is free, the retry loop of
`generate_room_code` reaches a free draw and returns it. -/
theorem gen_reaches_free (existing : List String) (draws : Nat → List (Fin 10)) :
    ∀ k n, codeOfDraw (draws (n + k)) ∉ existing →
      ∃ fuel m, generate_room_code existing draws fuel n = some (codeOfDraw (draws m)) ∧
        codeOfDraw (draws m) ∉ existing := by
  intro k
  induction k with
  | zero =>
    intro n h
    rw [Nat.add_zero] at h
    refine ⟨1, n, ?_, h⟩
    simp only [generate_room_code]
    rw [if_neg h]
  | succ k ih =>
    intro n h
    by_cases hc : codeOfDraw (draws n) ∈ existing
    · have h2 : codeOfDraw (draws ((n + 1) + k)) ∉ existing := by
        have e : n + (k + 1) = (n + 1) + k := by omega
        rw [e] at h
        exact h
      obtain ⟨fuel, m, hg, hm⟩ := ih (n + 1) h2
      refine ⟨fuel + 1, m, ?_, hm⟩
      simp only [generate_room_code]
      rw [if_pos hc]
      exact hg
    · refine ⟨1, n, ?_, hc⟩
      simp only [generate_room_code]
      rw [if_neg hc]

/-- Every drawn character is a decimal digit. -/
theorem digitChar_isDigit : ∀ d : Fin 10, (digitChar d).isDigit = true := by decide

/-- The built code has one character per drawn digit. -/
theorem codeOfDraw_length (draw : List (Fin 10)) : (codeOfDraw draw).length = draw.length := by
  show (draw.map digitChar).length = draw.length
  exact List.length_map draw digitChar

/-- The built code consists of decimal digit characters only. -/
theorem codeOfDraw_digits (draw : List (Fin 10)) :
    (codeOfDraw draw).toList.all Char.isDigit = true := by
  show (draw.map digitChar).all Char.isDigit = true
  rw [List.all_eq_true]
  intro c hc
  obtain ⟨d, _, rfl⟩ := List.mem_map.mp hc
  exact digitChar_isDigit d

/-- C9 amended: whenever the random draw stream eventually produces a code
that is not an existing room identifier (an event of probability 1 when a
free code exists, but not guaranteed by every stream), `generate_room_code`
terminates and returns a string of exactly the drawn length consisting of
decimal digit characters that is not the identifier of any existing
room. -/
theorem generate_room_code_correct (existing : List String) (draws : Nat → List (Fin 10))
    (len : Nat) (hlen : ∀ n, (draws n).length = len)
    (hfree : ∃ n, codeOfDraw (draws n) ∉ existing) :
    ∃ fuel code, generate_room_code existing draws fuel 0 = some code ∧
      code.length = len ∧ code ∉ existing ∧ code.toList.all Char.isDigit = true := by
  obtain ⟨n, hn⟩ := hfree
  have h0 : codeOfDraw (draws (0 + n)) ∉ existing := by rwa [Nat.zero_add]
  obtain ⟨fuel, m, hg, hm⟩ := gen_reaches_free existing draws n 0 h0
  exact ⟨fuel, codeOfDraw (draws m), hg, by rw [codeOfDraw_length]; exact hlen m, hm,
    codeOfDraw_digits (draws m)⟩

/-- Witness for `generate_room_code_correct`: the store holds "1234", the
stream draws 1-2-3-4 first (a collision forcing a retry) and 5-6-7-8
next. -/
theorem generate_room_code_correct_witness :
    ∃ fuel code, generate_room_code ["1234"]
        (fun n => if n = 0 then [1, 2, 3, 4] else [5, 6, 7, 8]) fuel 0 = some code ∧
      code.length = 4 ∧ code ∉ (["1234"] : List String) ∧
      code.toList.all Char.isDigit = true :=
  generate_room_code_correct ["1234"]
    (fun n => if n = 0 then [1, 2, 3, 4] else [5, 6, 7, 8]) 4
    (fun n => by by_cases h : n = 0 <;> simp [h])
    ⟨1, by decide⟩
